import Mathlib

/-!
A shallow embedding of `src/librustc_typeck/check/dropck.rs`: the
destructor-soundness checker (dropck) of a Rust compiler slice.  Pure
fragments of the source become Lean functions; the external collaborators
(the inference engine, fulfillment engine and region solver) are passed in
as explicit function-valued parameters, since the source consumes them
through narrow interfaces.  Diagnostics, which the source emits to the
session's sink as a side effect, are threaded as explicit return values.
-/

/-- Definition identity (`DefId`). -/
abbrev DefId := Nat

/-- Source span (`Span`). -/
abbrev Span := Nat

/-- A lifetime token (`ty::Region`): either a generic region parameter
(identified by index) or a free/named region. -/
inductive Region where
  | param (i : Nat)
  | named (n : Nat)
deriving DecidableEq, Repr

/-- A constant argument (`ty::Const`), kept opaque as a numeric value. -/
abbrev Const := Nat

mutual
/-- A type (`Ty`): a nominal (ADT) type applied to generic arguments, a
primitive type, a generic type parameter, or an unresolved inference
variable. -/
inductive Ty where
  | adt (did : DefId) (args : GenArgs)
  | prim (n : Nat)
  | param (i : Nat)
  | infer (v : Nat)

/-- A generic argument (`GenericArg`): a type, region or constant. -/
inductive GenArg where
  | ty (t : Ty)
  | region (r : Region)
  | const (c : Const)

/-- A list of generic arguments (`SubstsRef`). -/
inductive GenArgs where
  | nil
  | cons (a : GenArg) (rest : GenArgs)
end

deriving instance DecidableEq for Ty
deriving instance DecidableEq for GenArg
deriving instance DecidableEq for GenArgs

/-- A binder (`ty::Binder<T>`): quantified form wrapping a value. -/
structure Binder (α : Type) where
  skip_binder : α
deriving DecidableEq

/-- A trait predicate (`TraitPredicate`): trait identity applied to generic
arguments (the self type is the first argument). -/
structure TraitPred where
  def_id : DefId
  substs : GenArgs
deriving DecidableEq

/-- A projection predicate (`ProjectionPredicate`): an associated-type
equality, with the projection's identity, its arguments and the equated
type. -/
structure ProjPred where
  def_id : DefId
  substs : GenArgs
  ty : Ty
deriving DecidableEq

/-- A predicate (`ty::Predicate`): trait bound, projection, region-outlives
bound, type-outlives bound or another kind (well-formedness). -/
inductive Predicate where
  | trait (p : Binder TraitPred)
  | projection (p : Binder ProjPred)
  | regionOutlives (p : Binder (Region × Region))
  | typeOutlives (p : Binder (Ty × Region))
  | wellFormed (t : Ty)
deriving DecidableEq

/-- `ty::GenericPredicates`: predicates declared on an item, with an
optional parent item. -/
structure GenericPredicates where
  parent : Option DefId
  predicates : List Predicate
deriving DecidableEq

/-- A parameter environment (`ty::ParamEnv`): the list of predicates in
scope. -/
abbrev ParamEnv := List Predicate

/-- `ty::ParamEnv::empty()`. -/
def ParamEnv.empty : ParamEnv := []

/-- A deferred obligation handed to the external fulfillment engine, kept
opaque. -/
abbrev Obligation := Nat

/-- The failure sentinel (`ErrorReported`): "errors were reported", with no
payload. -/
inductive ErrorReported where
  | reported
deriving DecidableEq

/-- A structured diagnostic emitted to the session sink.  `e0366` is the
specialization rejection, `e0367` the unimplied-bound rejection (naming the
offending predicate); `delayedBug` models `delay_span_bug` (recorded, but
compilation continues); `fulfillmentErr` and `regionErr` carry opaque error
reports coming back from the external engines. -/
inductive Diag where
  | e0366 (primary : Span) (note : Span)
  | e0367 (primary : Span) (note : Span) (pred : Predicate)
  | delayedBug (span : Span) (ty : Ty)
  | fulfillmentErr (e : Nat)
  | regionErr (e : Nat)
deriving DecidableEq

/-- Outcome-of-relating error: `terr` is the recoverable `TypeError`
(`Err(e)` of a `RelateResult`), while `bug` models the `bug!` macro — an
internal-compiler-error panic that aborts the computation and is never
caught by the `match` in `relate_predicates`. -/
inductive RErr where
  | terr
  | bug
deriving DecidableEq

/-- `RelateResult<T>`, extended with the propagating `bug` abort. -/
abbrev RRes (α : Type) := Except RErr α

/-- Lookup of the i-th generic argument. -/
def GenArgs.get : GenArgs → Nat → Option GenArg
  | .nil, _ => none
  | .cons a _, 0 => some a
  | .cons _ rest, n + 1 => rest.get n

/-- Substitution into a region: a region parameter is replaced by the
corresponding region argument. -/
def Region.subst (s : GenArgs) : Region → Region
  | .param i =>
    match s.get i with
    | some (.region r) => r
    | _ => .param i
  | .named n => .named n

mutual
/-- Substitution (`Subst::subst`) into a type: type parameters are replaced
by the corresponding type argument. -/
def Ty.subst (s : GenArgs) : Ty → Ty
  | .adt d args => .adt d (GenArgs.subst s args)
  | .prim n => .prim n
  | .param i =>
    match s.get i with
    | some (.ty t) => t
    | _ => .param i
  | .infer v => .infer v

/-- Substitution into a generic argument. -/
def GenArg.subst (s : GenArgs) : GenArg → GenArg
  | .ty t => .ty (Ty.subst s t)
  | .region r => .region (Region.subst s r)
  | .const c => .const c

/-- Substitution into a generic-argument list. -/
def GenArgs.subst (s : GenArgs) : GenArgs → GenArgs
  | .nil => .nil
  | .cons a rest => .cons (GenArg.subst s a) (GenArgs.subst s rest)
end

/-- Substitution into a trait predicate. -/
def TraitPred.subst (s : GenArgs) (p : TraitPred) : TraitPred :=
  ⟨p.def_id, GenArgs.subst s p.substs⟩

/-- Substitution into a projection predicate. -/
def ProjPred.subst (s : GenArgs) (p : ProjPred) : ProjPred :=
  ⟨p.def_id, GenArgs.subst s p.substs, Ty.subst s p.ty⟩

/-- Substitution into a predicate. -/
def Predicate.subst (s : GenArgs) : Predicate → Predicate
  | .trait b => .trait ⟨TraitPred.subst s b.skip_binder⟩
  | .projection b => .projection ⟨ProjPred.subst s b.skip_binder⟩
  | .regionOutlives b =>
    .regionOutlives ⟨(Region.subst s b.skip_binder.1, Region.subst s b.skip_binder.2)⟩
  | .typeOutlives b =>
    .typeOutlives ⟨(Ty.subst s b.skip_binder.1, Region.subst s b.skip_binder.2)⟩
  | .wellFormed t => .wellFormed (Ty.subst s t)

/-- `GenericPredicates::instantiate`: substitute into every declared
predicate. -/
def GenericPredicates.instantiate (gp : GenericPredicates) (s : GenArgs) : List Predicate :=
  gp.predicates.map (Predicate.subst s)

/-- The read-only global type/definition table (the slice of `TyCtxt` this
component consumes): type, declared predicates, definition span and
parameter environment of an item. -/
structure TCtxt where
  type_of : DefId → Ty
  predicates_of : DefId → GenericPredicates
  def_span : DefId → Span
  param_env : DefId → ParamEnv

/-- Variance (`ty::Variance`). -/
inductive Variance where
  | covariant
  | contravariant
  | invariant
  | bivariant
deriving DecidableEq

/-- `Relator::regions` (dropck.rs lines 348-356): region matching always
succeeds and returns the first ("expected") operand, regardless of
identity. -/
def Relator.regions (a : Region) (b : Region) : RRes Region :=
  Except.ok a

/-- `Relator::consts` (dropck.rs lines 358-375): every pair falls through to
the external `infcx.super_combine_consts`, modelled from the spec ("relate
via the ambient unification collaborator") as agreement of the two opaque
constant values. -/
def Relator.consts (a : Const) (b : Const) : RRes Const :=
  if a = b then Except.ok a else Except.error .terr

mutual
/-- `Relator::tys` (dropck.rs lines 332-346): an inference variable on
either side is forbidden and hits `bug!` (the propagating abort); every
other pair falls through to the external `infcx.super_combine_tys`, whose
structural behaviour (relate recursively by structure via the relation's
own methods; constructor or arity mismatch is a `TypeError`) is inlined
here as the remaining arms. -/
def Relator.tys : Ty → Ty → RRes Ty
  | _, .infer _ => Except.error .bug
  | .infer _, _ => Except.error .bug
  | .adt d1 s1, .adt d2 s2 =>
    if d1 = d2 then (relateSubsts s1 s2).map (Ty.adt d1) else Except.error .terr
  | .prim n1, .prim n2 =>
    if n1 = n2 then Except.ok (Ty.prim n1) else Except.error .terr
  | .param i, .param j =>
    if i = j then Except.ok (Ty.param i) else Except.error .terr
  | _, _ => Except.error .terr

/-- Relating two generic-argument lists position-wise (the substs relation
of `super_combine_tys`; through the Relator's variance-ignoring
`relate_with_variance`, each position is related with the plain
relation). -/
def relateSubsts : GenArgs → GenArgs → RRes GenArgs
  | .nil, .nil => Except.ok .nil
  | .cons a as, .cons b bs => do
    let x ← relateArg a b
    let xs ← relateSubsts as bs
    Except.ok (.cons x xs)
  | _, _ => Except.error .terr

/-- Relating one generic argument, dispatching to the Relator's `tys`,
`regions` or `consts` by sort. -/
def relateArg : GenArg → GenArg → RRes GenArg
  | .ty a, .ty b => (Relator.tys a b).map GenArg.ty
  | .region a, .region b => (Relator.regions a b).map GenArg.region
  | .const a, .const b => (Relator.consts a b).map GenArg.const
  | _, _ => Except.error .terr
end

/-- Relating two trait predicates: trait identity must agree, then the
generic arguments are related structurally. -/
def relateTraitPred (a : TraitPred) (b : TraitPred) : RRes TraitPred :=
  if a.def_id = b.def_id then (relateSubsts a.substs b.substs).map (TraitPred.mk a.def_id)
  else Except.error .terr

/-- Relating two projection predicates: projection identity must agree,
then arguments and the equated type are related structurally. -/
def relateProjPred (a : ProjPred) (b : ProjPred) : RRes ProjPred :=
  if a.def_id = b.def_id then do
    let s ← relateSubsts a.substs b.substs
    let t ← Relator.tys a.ty b.ty
    Except.ok ⟨a.def_id, s, t⟩
  else Except.error .terr

/-- `Relator::binders` (dropck.rs lines 377-390): relate the inner bodies
after stripping the binders, and re-wrap the first operand as the
result. -/
def Relator.binders {α : Type} (rel : α → α → RRes α) (a : Binder α) (b : Binder α) :
    RRes (Binder α) := do
  let _ ← rel a.skip_binder b.skip_binder
  Except.ok a

/-- The relatable operands, as a closed sum: everything `Relator::relate`
can be asked to compare. -/
inductive RelOperand where
  | ty (t : Ty)
  | region (r : Region)
  | const (c : Const)
  | arg (g : GenArg)
  | args (s : GenArgs)
  | traitPred (p : Binder TraitPred)
  | projPred (p : Binder ProjPred)
deriving DecidableEq

/-- `TypeRelation::relate`: dispatch an operand pair to the matching
Relator method (the source's `relate` is typed, so mismatched sorts cannot
occur; they are mapped to a `TypeError` here). -/
def Relator.relate : RelOperand → RelOperand → RRes RelOperand
  | .ty a, .ty b => (Relator.tys a b).map RelOperand.ty
  | .region a, .region b => (Relator.regions a b).map RelOperand.region
  | .const a, .const b => (Relator.consts a b).map RelOperand.const
  | .arg a, .arg b => (relateArg a b).map RelOperand.arg
  | .args a, .args b => (relateSubsts a b).map RelOperand.args
  | .traitPred a, .traitPred b => (Relator.binders relateTraitPred a b).map RelOperand.traitPred
  | .projPred a, .projPred b => (Relator.binders relateProjPred a b).map RelOperand.projPred
  | _, _ => Except.error .terr

/-- `Relator::relate_with_variance` (dropck.rs lines 323-330): the variance
argument is discarded and the plain relation is used. -/
def Relator.relate_with_variance (v : Variance) (a : RelOperand) (b : RelOperand) :
    RRes RelOperand :=
  Relator.relate a b

/-- `relate_predicates` (dropck.rs lines 263-274): `Ok` becomes a match,
`Err` (a `TypeError`) a non-match.  A `bug` abort raised inside the
relation propagates past this `match`, as a panic does in the source. -/
def relate_predicates {α : Type} (rel : α → α → RRes α) (a : α) (b : α) : RRes Bool :=
  match rel a b with
  | .ok _ => Except.ok true
  | .error .terr => Except.ok false
  | .error .bug => Except.error .bug

/-- `predicate_matches` (dropck.rs lines 244-261): trait-bound pairs and
projection pairs are related structurally (under their binders); every
other pairing falls back to plain syntactic equality of the two
predicates. -/
def predicate_matches (p1 : Predicate) (p2 : Predicate) : RRes Bool :=
  match p1, p2 with
  | .trait a, .trait b => relate_predicates (Relator.binders relateTraitPred) a b
  | .projection a, .projection b => relate_predicates (Relator.binders relateProjPred) a b
  | _, _ => Except.ok (decide (p1 = p2))

/-- The `assumptions_in_impl_context.iter().any(..)` search (dropck.rs
lines 219-222): does any instantiated assumption match the destructor
predicate?  The dtor predicate is the first ("expected") operand of every
comparison.  A `bug` abort raised by a comparison propagates. -/
def anyMatches (p : Predicate) : List Predicate → RRes Bool
  | [] => Except.ok false
  | a :: rest => do
    let b ← predicate_matches p a
    if b then Except.ok true else anyMatches p rest

/-- The `for` loop of `ensure_drop_predicates_are_implied_by_item_defn`
(dropck.rs lines 206-239): for each destructor predicate with no matching
instantiated assumption, emit one E0367 diagnostic naming it and set the
result to the failure sentinel; checking continues through the remaining
predicates. -/
def checkLoop (drop_impl_span : Span) (item_span : Span) (asm : List Predicate) :
    List Predicate → RRes (List Diag × Except ErrorReported Unit)
  | [] => Except.ok ([], Except.ok ())
  | p :: rest => do
    let m ← anyMatches p asm
    let (ds, r) ← checkLoop drop_impl_span item_span asm rest
    if m then Except.ok (ds, r)
    else Except.ok (Diag.e0367 drop_impl_span item_span p :: ds, Except.error .reported)

/-- `ensure_drop_predicates_are_implied_by_item_defn` (dropck.rs lines
141-242): instantiate the type definition's declared assumptions through
the TypeDef-to-DropImpl substitution, then check every destructor
predicate against them.  The `assert_eq!(dtor_predicates.parent, None)`
is the propagating abort when it fails. -/
def ensure_drop_predicates_are_implied_by_item_defn (tcx : TCtxt) (drop_impl_did : DefId)
    (dtor_predicates : GenericPredicates) (self_type_did : DefId)
    (self_to_impl_substs : GenArgs) : RRes (List Diag × Except ErrorReported Unit) :=
  let drop_impl_span := tcx.def_span drop_impl_did
  let item_span := tcx.def_span self_type_did
  let generic_assumptions := tcx.predicates_of self_type_did
  let assumptions_in_impl_context := generic_assumptions.instantiate self_to_impl_substs
  if dtor_predicates.parent = none then
    checkLoop drop_impl_span item_span assumptions_in_impl_context dtor_predicates.predicates
  else Except.error .bug

/-- `OutlivesEnvironment` over a parameter environment. -/
structure OutlivesEnvironment where
  param_env : ParamEnv
deriving DecidableEq

/-- `OutlivesEnvironment::new`. -/
def OutlivesEnvironment.new (pe : ParamEnv) : OutlivesEnvironment :=
  ⟨pe⟩

/-- `region::ScopeTree` (only its `default()` is used here). -/
structure ScopeTree where
deriving DecidableEq

/-- `region::ScopeTree::default()`. -/
def ScopeTree.default : ScopeTree := ⟨⟩

/-- `SuppressRegionErrors`: whether region-resolution errors are
suppressed; `default()` does not suppress. -/
structure SuppressRegionErrors where
  suppressed : Bool
deriving DecidableEq

/-- `SuppressRegionErrors::default()`. -/
def SuppressRegionErrors.default : SuppressRegionErrors :=
  ⟨false⟩

/-- The external inference/fulfillment/region collaborators consumed by the
Generic-Signature Matcher, as opaque functions: fresh placeholder substs
for an item, type-equality unification (returning residual obligations or
a type error), obligation fulfillment (returning unresolved errors), and
region resolution (returning the region errors it reports). -/
structure InferEngine where
  fresh_substs_for_item : Span → DefId → GenArgs
  eq : ParamEnv → Ty → Ty → Except Unit (List Obligation)
  select_all_or_error : List Obligation → Except (List Nat) Unit
  resolve_regions : DefId → ScopeTree → OutlivesEnvironment → SuppressRegionErrors → List Nat

/-- `ensure_drop_params_and_item_params_correspond` (dropck.rs lines
67-137): instantiate the drop impl's self type with fresh placeholders and
require it to unify with the type definition's named self type.  Unification
failure is the E0366 specialization rejection (primary span: the drop
impl's; note span: the type definition's).  On success, residual
obligations are fulfilled (failures reported and returned as the
sentinel), and finally regions are resolved against an empty outlives
environment; region errors are reported but the function then returns
success. -/
def ensure_drop_params_and_item_params_correspond (tcx : TCtxt) (engine : InferEngine)
    (drop_impl_did : DefId) (drop_impl_ty : Ty) (self_type_did : DefId) :
    List Diag × Except ErrorReported Unit :=
  let impl_param_env := tcx.param_env self_type_did
  let named_type := tcx.type_of self_type_did
  let drop_impl_span := tcx.def_span drop_impl_did
  let fresh_impl_substs := engine.fresh_substs_for_item drop_impl_span drop_impl_did
  let fresh_impl_self_ty := Ty.subst fresh_impl_substs drop_impl_ty
  match engine.eq impl_param_env named_type fresh_impl_self_ty with
  | .error _ =>
    let item_span := tcx.def_span self_type_did
    ([Diag.e0366 drop_impl_span item_span], Except.error .reported)
  | .ok obligations =>
    match engine.select_all_or_error obligations with
    | .error errors => (errors.map Diag.fulfillmentErr, Except.error .reported)
    | .ok () =>
      let region_scope_tree := ScopeTree.default
      let outlives_env := OutlivesEnvironment.new ParamEnv.empty
      let regionErrors := engine.resolve_regions drop_impl_did region_scope_tree outlives_env
        SuppressRegionErrors.default
      (regionErrors.map Diag.regionErr, Except.ok ())

/-- `check_drop_impl` (dropck.rs lines 33-65): on a nominal (ADT) self
type, run the Generic-Signature Matcher and, if it succeeds, the
Predicate-Implication Checker; on any other self type, record a delayed
internal-consistency diagnostic and return the failure sentinel. -/
def check_drop_impl (tcx : TCtxt) (engine : InferEngine) (drop_impl_did : DefId) :
    RRes (List Diag × Except ErrorReported Unit) :=
  let dtor_self_type := tcx.type_of drop_impl_did
  let dtor_predicates := tcx.predicates_of drop_impl_did
  match dtor_self_type with
  | .adt adt_did self_to_impl_substs =>
    match ensure_drop_params_and_item_params_correspond tcx engine drop_impl_did
        dtor_self_type adt_did with
    | (d1, .error e) => Except.ok (d1, Except.error e)
    | (d1, .ok ()) => do
      let (d2, r2) ← ensure_drop_predicates_are_implied_by_item_defn tcx drop_impl_did
        dtor_predicates adt_did self_to_impl_substs
      Except.ok (d1 ++ d2, r2)
  | _ =>
    let span := tcx.def_span drop_impl_did
    Except.ok ([Diag.delayedBug span dtor_self_type], Except.error .reported)

/-- An obligation cause (`ObligationCause`): span and enclosing body. -/
structure ObligationCause where
  span : Span
  body_id : Nat
deriving DecidableEq

/-- `ObligationCause::misc`. -/
def ObligationCause.misc (span : Span) (body_id : Nat) : ObligationCause :=
  ⟨span, body_id⟩

/-- The slice of the region-checking context (`RegionCtxt`) consumed by the
Drop-Obligation Emitter: the ambient parameter environment and the
external `dropck_outlives` query, which produces the outlives obligations
of a dropped type. -/
structure RegionCtxt where
  param_env : ParamEnv
  dropck_outlives : ObligationCause → ParamEnv → Ty → List Obligation

/-- `check_drop_obligations` (dropck.rs lines 279-293): build one synthetic
obligation cause, run the external `dropck_outlives` query, and register
every produced obligation, unmodified, with the enclosing context's
obligation sink (modelled as the first component of the result); always
returns success. -/
def check_drop_obligations (rcx : RegionCtxt) (ty : Ty) (span : Span) (body_id : Nat) :
    List Obligation × Except ErrorReported Unit :=
  let cause := ObligationCause.misc span body_id
  let infer_ok := rcx.dropck_outlives cause rcx.param_env ty
  (infer_ok, Except.ok ())

deriving instance DecidableEq for Except

/-- Does the search over the instantiated assumptions come back as a clean
non-match (as opposed to a match, or a propagating abort)? -/
def noMatch (asm : List Predicate) (p : Predicate) : Bool :=
  match anyMatches p asm with
  | .ok false => true
  | _ => false

/-- Is the predicate a trait bound? -/
def isTraitPred : Predicate → Bool
  | .trait _ => true
  | _ => false

/-- Is the predicate a projection? -/
def isProjectionPred : Predicate → Bool
  | .projection _ => true
  | _ => false

/-- A trait predicate containing an unresolved inference placeholder. -/
def inferTraitPred : Predicate :=
  Predicate.trait ⟨⟨0, GenArgs.cons (GenArg.ty (Ty.infer 0)) GenArgs.nil⟩⟩

/-- A type table whose predicates contain an inference placeholder. -/
def inferTCtxt : TCtxt :=
  ⟨fun _ => Ty.prim 0, fun _ => ⟨none, [inferTraitPred]⟩, fun _ => 0, fun _ => []⟩

/-- A trait bound on the first type parameter. -/
def paramTraitPred : Predicate :=
  Predicate.trait ⟨⟨0, GenArgs.cons (GenArg.ty (Ty.param 0)) GenArgs.nil⟩⟩

/-- A type table declaring no bounds on the type definition. -/
def noBoundsTCtxt : TCtxt :=
  ⟨fun _ => Ty.prim 0, fun _ => ⟨none, []⟩, fun d => d + 5, fun _ => []⟩

/-- A type table with a non-generic self type. -/
def specTCtxt : TCtxt :=
  ⟨fun _ => Ty.prim 0, fun _ => ⟨none, []⟩, fun d => d + 10, fun _ => []⟩

/-- An inference engine whose type-equality unification always fails. -/
def eqFailEngine : InferEngine :=
  ⟨fun _ _ => GenArgs.nil, fun _ _ _ => Except.error (), fun _ => Except.ok (),
    fun _ _ _ _ => []⟩

/-- A type table for the residual-region-error scenario. -/
def regionErrTCtxt : TCtxt :=
  ⟨fun _ => Ty.prim 0, fun _ => ⟨none, []⟩, fun d => d, fun _ => []⟩

/-- An inference engine whose unification succeeds with no residual
obligations but whose region resolution reports one region error. -/
def regionErrEngine : InferEngine :=
  ⟨fun _ _ => GenArgs.nil, fun _ _ _ => Except.ok [], fun _ => Except.ok (),
    fun _ _ _ _ => [5]⟩

/-- A type table whose drop-impl self type is a non-nominal (primitive)
type. -/
def nonNominalTCtxt : TCtxt :=
  ⟨fun _ => Ty.prim 3, fun _ => ⟨none, []⟩, fun d => d, fun _ => []⟩

/-- An inference engine that succeeds everywhere and reports nothing. -/
def idleEngine : InferEngine :=
  ⟨fun _ _ => GenArgs.nil, fun _ _ _ => Except.ok [], fun _ => Except.ok (),
    fun _ _ _ _ => []⟩

/-- A type table whose drop-impl self type is a nominal type. -/
def adtTCtxt : TCtxt :=
  ⟨fun _ => Ty.adt 9 GenArgs.nil, fun _ => ⟨none, []⟩, fun d => d, fun _ => []⟩

/-- Claim C3 loop invariant: if the predicate-checking loop returns
normally, its emitted diagnostics are exactly one E0367 (naming the bound)
for each destructor predicate with no matching assumption, in order, and
the returned result is success exactly when no diagnostic was emitted. -/
theorem checkLoop_ok (dspan ispan : Span) (asm : List Predicate) :
    ∀ (ps : List Predicate) (ds : List Diag) (r : Except ErrorReported Unit),
    checkLoop dspan ispan asm ps = Except.ok (ds, r) →
    ds = (ps.filter (noMatch asm)).map (Diag.e0367 dspan ispan) ∧
    (r = Except.ok () ↔ ps.filter (noMatch asm) = []) := by
  intro ps
  induction ps with
  | nil =>
    intro ds r h
    simp only [checkLoop, Except.ok.injEq, Prod.mk.injEq] at h
    obtain ⟨h1, h2⟩ := h
    subst h1; subst h2
    simp
  | cons p rest ih =>
    intro ds r h
    simp only [checkLoop] at h
    cases h1 : anyMatches p asm with
    | error e =>
      rw [h1] at h
      simp [Bind.bind, Except.bind] at h
    | ok m =>
      rw [h1] at h
      cases h2 : checkLoop dspan ispan asm rest with
      | error e =>
        rw [h2] at h
        simp [Bind.bind, Except.bind] at h
      | ok pr =>
        obtain ⟨ds2, r2⟩ := pr
        rw [h2] at h
        obtain ⟨ihd, ihr⟩ := ih ds2 r2 h2
        cases m with
        | true =>
          simp [Bind.bind, Except.bind] at h
          obtain ⟨hds, hr⟩ := h
          subst hds; subst hr
          have hnm : noMatch asm p = false := by simp [noMatch, h1]
          simp only [List.filter_cons, hnm]
          exact ⟨ihd, ihr⟩
        | false =>
          simp [Bind.bind, Except.bind] at h
          obtain ⟨hds, hr⟩ := h
          subst hds; subst hr
          have hnm : noMatch asm p = true := by simp [noMatch, h1]
          simp only [List.filter_cons, hnm]
          constructor
          · simp [ihd]
          · simp

/-- The Generic-Signature Matcher never emits an E0367 (unimplied-bound)
diagnostic: its diagnostics are the E0366 specialization rejection,
fulfillment errors, or region errors. -/
theorem ensure_params_diags_not_e0367 (tcx : TCtxt) (engine : InferEngine)
    (drop_impl_did self_type_did : DefId) (drop_impl_ty : Ty) :
    ∀ d ∈ (ensure_drop_params_and_item_params_correspond tcx engine drop_impl_did
      drop_impl_ty self_type_did).1, ∀ sp np p, d ≠ Diag.e0367 sp np p := by
  simp only [ensure_drop_params_and_item_params_correspond]
  split
  · simp
  · split
    · intro d hd sp np p
      simp only [List.mem_map] at hd
      obtain ⟨e, _, he⟩ := hd
      subst he; simp
    · intro d hd sp np p
      simp only [List.mem_map] at hd
      obtain ⟨e, _, he⟩ := hd
      subst he; simp

/-- Claim C1 (counterexample): two outlives-style bounds that differ only
in which lifetime token is used are NOT treated as matching by
`predicate_matches`: an outlives pair falls into the syntactic-equality
arm, which distinguishes the tokens — even though the Relator's own
region relation would have accepted the same two tokens. -/
theorem claim_C1_cex :
    predicate_matches
      (Predicate.regionOutlives ⟨(Region.named 0, Region.named 1)⟩)
      (Predicate.regionOutlives ⟨(Region.named 2, Region.named 1)⟩) = Except.ok false ∧
    Relator.regions (Region.named 0) (Region.named 2) = Except.ok (Region.named 0) := by
  exact ⟨by decide, rfl⟩

/-- Claim C1 (amended): inside the Relator's structural relation regions
always match regardless of identity (so trait bounds differing only in a
region argument are treated as matching, and the Relator never fails
because two region tokens differ); but two outlives bounds reach the
plain-syntactic-equality fallback of `predicate_matches`, so outlives
bounds differing only in a lifetime token do not match. -/
theorem claim_C1_amended :
    (∀ (a b : Region), Relator.regions a b = Except.ok a) ∧
    (∀ (d : DefId) (r1 r2 : Region),
      predicate_matches
        (Predicate.trait ⟨⟨d, GenArgs.cons (GenArg.region r1) GenArgs.nil⟩⟩)
        (Predicate.trait ⟨⟨d, GenArgs.cons (GenArg.region r2) GenArgs.nil⟩⟩) =
        Except.ok true) ∧
    (∀ (pa pb : Binder (Region × Region)),
      predicate_matches (Predicate.regionOutlives pa) (Predicate.regionOutlives pb) =
        Except.ok (decide (Predicate.regionOutlives pa = Predicate.regionOutlives pb))) := by
  refine ⟨fun a b => rfl, fun d r1 r2 => ?_, fun pa pb => rfl⟩
  simp [predicate_matches, relate_predicates, Relator.binders, relateTraitPred,
    relateSubsts, relateArg, Relator.regions, Bind.bind, Except.bind, Except.map]

/-- Claim C2 (counterexample): when the Relator meets an unresolved
inference placeholder, the component does NOT return a failure sentinel:
the comparison, the assumption search, and the whole
Predicate-Implication Checker all end in the propagating `bug!` abort
(an internal-compiler-error panic), not in an `Except.ok` carrying the
`ErrorReported` sentinel. -/
theorem claim_C2_cex :
    Relator.tys (Ty.infer 0) (Ty.prim 0) = Except.error RErr.bug ∧
    predicate_matches inferTraitPred inferTraitPred = Except.error RErr.bug ∧
    ensure_drop_predicates_are_implied_by_item_defn inferTCtxt 0 ⟨none, [inferTraitPred]⟩ 1
      GenArgs.nil = Except.error RErr.bug := by
  exact ⟨rfl, by decide, by decide⟩

/-- Claim C2 (amended): when the Relator encounters an unresolved
inference placeholder on either side of a type comparison it neither
silently succeeds nor returns the recoverable non-match: it raises the
defensive `bug!` abort, which propagates past the caller's error handling
(aborting the run) instead of being converted into the failure
sentinel. -/
theorem claim_C2_amended : ∀ (a b : Ty) (v : Nat),
    Relator.tys a (Ty.infer v) = Except.error RErr.bug ∧
    Relator.tys (Ty.infer v) b = Except.error RErr.bug := by
  intro a b v
  exact ⟨by cases a <;> rfl, by cases b <;> rfl⟩

/-- Claim C3: when the Predicate-Implication Checker returns normally, it
has emitted exactly one E0367 diagnostic — naming the bound — for every
DropImpl bound with no structural counterpart among the TypeDef's
substituted bounds (checking all bounds, without short-circuiting), and it
returns success if and only if no such diagnostic was emitted. -/
theorem claim_C3 (tcx : TCtxt) (drop_impl_did self_type_did : DefId)
    (dtor_predicates : GenericPredicates) (s : GenArgs) (ds : List Diag)
    (r : Except ErrorReported Unit)
    (h : ensure_drop_predicates_are_implied_by_item_defn tcx drop_impl_did dtor_predicates
      self_type_did s = Except.ok (ds, r)) :
    ds = (dtor_predicates.predicates.filter
        (noMatch ((tcx.predicates_of self_type_did).instantiate s))).map
        (Diag.e0367 (tcx.def_span drop_impl_did) (tcx.def_span self_type_did)) ∧
    (r = Except.ok () ↔ dtor_predicates.predicates.filter
        (noMatch ((tcx.predicates_of self_type_did).instantiate s)) = []) := by
  simp only [ensure_drop_predicates_are_implied_by_item_defn] at h
  by_cases hp : dtor_predicates.parent = none
  · rw [if_pos hp] at h
    exact checkLoop_ok _ _ _ _ _ _ h
  · rw [if_neg hp] at h
    exact absurd h (by simp)

/-- Claim C3 witness: a destructor declaring one trait bound on a type
that declares none gets exactly one E0367 naming that bound, and the
failure sentinel. -/
theorem claim_C3_witness :
    (ensure_drop_predicates_are_implied_by_item_defn noBoundsTCtxt 0 ⟨none, [paramTraitPred]⟩ 1
      GenArgs.nil = Except.ok ([Diag.e0367 5 6 paramTraitPred],
        Except.error ErrorReported.reported)) ∧
    ([Diag.e0367 5 6 paramTraitPred] =
      (([paramTraitPred] : List Predicate).filter
        (noMatch ((noBoundsTCtxt.predicates_of 1).instantiate GenArgs.nil))).map
        (Diag.e0367 (noBoundsTCtxt.def_span 0) (noBoundsTCtxt.def_span 1)) ∧
    (Except.error ErrorReported.reported = (Except.ok () : Except ErrorReported Unit) ↔
      ([paramTraitPred] : List Predicate).filter
        (noMatch ((noBoundsTCtxt.predicates_of 1).instantiate GenArgs.nil)) = [])) :=
  ⟨rfl, claim_C3 noBoundsTCtxt 0 1 ⟨none, [paramTraitPred]⟩ GenArgs.nil _ _ rfl⟩

/-- Claim C4: if no instantiation of the fresh placeholders makes the
TypeDef's named self type equal to the DropImpl's freshly instantiated
self type (the external unifier rejects), the Generic-Signature Matcher
emits exactly one E0366 specialization diagnostic whose primary span is
the destructor's span and whose note span is the type definition's span,
and returns the failure sentinel. -/
theorem claim_C4 (tcx : TCtxt) (engine : InferEngine) (drop_impl_did self_type_did : DefId)
    (drop_impl_ty : Ty)
    (h : engine.eq (tcx.param_env self_type_did) (tcx.type_of self_type_did)
      (Ty.subst (engine.fresh_substs_for_item (tcx.def_span drop_impl_did) drop_impl_did)
        drop_impl_ty) = Except.error ()) :
    ensure_drop_params_and_item_params_correspond tcx engine drop_impl_did drop_impl_ty
      self_type_did =
      ([Diag.e0366 (tcx.def_span drop_impl_did) (tcx.def_span self_type_did)],
        Except.error ErrorReported.reported) := by
  simp only [ensure_drop_params_and_item_params_correspond]
  rw [h]

/-- Claim C4 witness: with a unifier that rejects, the matcher produces the
E0366 diagnostic at the expected spans and the failure sentinel. -/
theorem claim_C4_witness :
    (eqFailEngine.eq (specTCtxt.param_env 1) (specTCtxt.type_of 1)
      (Ty.subst (eqFailEngine.fresh_substs_for_item (specTCtxt.def_span 0) 0) (Ty.prim 0)) =
      Except.error ()) ∧
    ensure_drop_params_and_item_params_correspond specTCtxt eqFailEngine 0 (Ty.prim 0) 1 =
      ([Diag.e0366 (specTCtxt.def_span 0) (specTCtxt.def_span 1)],
        Except.error ErrorReported.reported) :=
  ⟨rfl, claim_C4 specTCtxt eqFailEngine 0 1 (Ty.prim 0) rfl⟩

/-- Claim C5 (counterexample): residual lifetime errors after a successful
signature match are NOT reported as failure of the check: with a region
solver that reports one residual region error, the error is emitted to
the diagnostic sink, yet the Generic-Signature Matcher still returns the
success sentinel. -/
theorem claim_C5_cex :
    ensure_drop_params_and_item_params_correspond regionErrTCtxt regionErrEngine 0
      (Ty.prim 0) 1 = ([Diag.regionErr 5], Except.ok ()) ∧
    regionErrEngine.resolve_regions 0 ScopeTree.default
      (OutlivesEnvironment.new ParamEnv.empty) SuppressRegionErrors.default = [5] :=
  ⟨rfl, rfl⟩

/-- Claim C5 (amended): after a successful signature-match unification,
lifetime placeholders are resolved against an empty outlives environment
(relations declared on the destructor impl are not assumed) with error
suppression off, and any residual lifetime errors are emitted to the
diagnostic sink rather than suppressed — but the function itself then
returns the success sentinel; the failure surfaces only through the
emitted diagnostics. -/
theorem claim_C5_amended (tcx : TCtxt) (engine : InferEngine)
    (drop_impl_did self_type_did : DefId) (drop_impl_ty : Ty) (obs : List Obligation)
    (h1 : engine.eq (tcx.param_env self_type_did) (tcx.type_of self_type_did)
      (Ty.subst (engine.fresh_substs_for_item (tcx.def_span drop_impl_did) drop_impl_did)
        drop_impl_ty) = Except.ok obs)
    (h2 : engine.select_all_or_error obs = Except.ok ()) :
    ensure_drop_params_and_item_params_correspond tcx engine drop_impl_did drop_impl_ty
      self_type_did =
      ((engine.resolve_regions drop_impl_did ScopeTree.default
          (OutlivesEnvironment.new ParamEnv.empty) SuppressRegionErrors.default).map
        Diag.regionErr, Except.ok ()) := by
  simp only [ensure_drop_params_and_item_params_correspond, h1, h2]

/-- Claim C5 witness: concrete run through the successful-unification path,
showing the empty outlives environment and the success sentinel. -/
theorem claim_C5_amended_witness :
    (regionErrEngine.eq (regionErrTCtxt.param_env 1) (regionErrTCtxt.type_of 1)
      (Ty.subst (regionErrEngine.fresh_substs_for_item (regionErrTCtxt.def_span 0) 0)
        (Ty.prim 0)) = Except.ok []) ∧
    (regionErrEngine.select_all_or_error [] = Except.ok ()) ∧
    ensure_drop_params_and_item_params_correspond regionErrTCtxt regionErrEngine 0
      (Ty.prim 0) 1 =
      ((regionErrEngine.resolve_regions 0 ScopeTree.default
          (OutlivesEnvironment.new ParamEnv.empty) SuppressRegionErrors.default).map
        Diag.regionErr, Except.ok ()) :=
  ⟨rfl, rfl, claim_C5_amended regionErrTCtxt regionErrEngine 0 1 (Ty.prim 0) [] rfl rfl⟩

/-- Claim C6: for every pair of predicates whose syntactic kinds are not
both trait bounds and not both projections (outlives bounds included), the
match verdict of `predicate_matches` is exactly plain syntactic equality
of the two predicates. -/
theorem claim_C6 (p1 p2 : Predicate)
    (hT : (isTraitPred p1 && isTraitPred p2) = false)
    (hP : (isProjectionPred p1 && isProjectionPred p2) = false) :
    predicate_matches p1 p2 = Except.ok (decide (p1 = p2)) := by
  cases p1 <;> cases p2 <;> simp_all [isTraitPred, isProjectionPred, predicate_matches]

/-- Claim C6 witness: an outlives bound compared against a well-formedness
predicate is decided by syntactic equality. -/
theorem claim_C6_witness :
    ((isTraitPred (Predicate.regionOutlives ⟨(Region.named 0, Region.named 0)⟩) &&
      isTraitPred (Predicate.wellFormed (Ty.prim 0))) = false) ∧
    ((isProjectionPred (Predicate.regionOutlives ⟨(Region.named 0, Region.named 0)⟩) &&
      isProjectionPred (Predicate.wellFormed (Ty.prim 0))) = false) ∧
    predicate_matches (Predicate.regionOutlives ⟨(Region.named 0, Region.named 0)⟩)
      (Predicate.wellFormed (Ty.prim 0)) =
      Except.ok (decide
        ((Predicate.regionOutlives ⟨(Region.named 0, Region.named 0)⟩ : Predicate) =
          Predicate.wellFormed (Ty.prim 0))) :=
  ⟨rfl, rfl, claim_C6 _ _ rfl rfl⟩

/-- Claim C7: for a drop impl whose self type is not a nominal (ADT) type,
the predicate-implication checker never runs: `check_drop_impl` records a
delayed internal-consistency diagnostic (compilation continues — no abort)
and returns the failure sentinel. -/
theorem claim_C7 (tcx : TCtxt) (engine : InferEngine) (drop_impl_did : DefId)
    (h : ∀ a s, tcx.type_of drop_impl_did ≠ Ty.adt a s) :
    check_drop_impl tcx engine drop_impl_did =
      Except.ok ([Diag.delayedBug (tcx.def_span drop_impl_did) (tcx.type_of drop_impl_did)],
        Except.error ErrorReported.reported) := by
  simp only [check_drop_impl]

/-- Claim C7 witness: a drop impl on a primitive self type yields the
delayed diagnostic and the failure sentinel. -/
theorem claim_C7_witness :
    (∀ a s, nonNominalTCtxt.type_of 0 ≠ Ty.adt a s) ∧
    check_drop_impl nonNominalTCtxt idleEngine 0 =
      Except.ok ([Diag.delayedBug (nonNominalTCtxt.def_span 0) (nonNominalTCtxt.type_of 0)],
        Except.error ErrorReported.reported) :=
  ⟨fun a s h => Ty.noConfusion h,
    claim_C7 nonNominalTCtxt idleEngine 0 (fun a s h => Ty.noConfusion h)⟩

/-- Claim C8: the Drop-Obligation Emitter cannot fail on its own: for
every context, type, span and body it registers exactly the obligations
produced by the external dropck-outlives query, unmodified, and always
returns success. -/
theorem claim_C8 : ∀ (rcx : RegionCtxt) (ty : Ty) (span : Span) (body_id : Nat),
    (check_drop_obligations rcx ty span body_id).1 =
      rcx.dropck_outlives (ObligationCause.misc span body_id) rcx.param_env ty ∧
    (check_drop_obligations rcx ty span body_id).2 = Except.ok () :=
  fun _ _ _ _ => ⟨rfl, rfl⟩

/-- Claim C9: the signature match gates the bound check: when the
Generic-Signature Matcher fails on a nominal self type, `check_drop_impl`
returns that failure directly, and the emitted diagnostics contain no
E0367 unimplied-bound error (the Predicate-Implication Checker never
contributes). -/
theorem claim_C9 (tcx : TCtxt) (engine : InferEngine) (drop_impl_did : DefId)
    (a : DefId) (s : GenArgs) (d1 : List Diag)
    (hA : tcx.type_of drop_impl_did = Ty.adt a s)
    (hP : ensure_drop_params_and_item_params_correspond tcx engine drop_impl_did
      (tcx.type_of drop_impl_did) a = (d1, Except.error ErrorReported.reported)) :
    check_drop_impl tcx engine drop_impl_did =
      Except.ok (d1, Except.error ErrorReported.reported) ∧
    ∀ d ∈ d1, ∀ sp np p, d ≠ Diag.e0367 sp np p := by
  constructor
  · simp only [check_drop_impl]
    rw [hA] at hP ⊢
    simp [hP]
  · intro d hd
    have hmem : d ∈ (ensure_drop_params_and_item_params_correspond tcx engine drop_impl_did
        (tcx.type_of drop_impl_did) a).1 := by
      rw [hP]; exact hd
    exact ensure_params_diags_not_e0367 tcx engine drop_impl_did a
      (tcx.type_of drop_impl_did) d hmem

/-- Claim C9 witness: a nominal self type with a failing signature match
gives exactly the E0366 diagnostic and the failure sentinel, with no E0367
emitted. -/
theorem claim_C9_witness :
    (adtTCtxt.type_of 0 = Ty.adt 9 GenArgs.nil) ∧
    (ensure_drop_params_and_item_params_correspond adtTCtxt eqFailEngine 0
      (adtTCtxt.type_of 0) 9 = ([Diag.e0366 0 9], Except.error ErrorReported.reported)) ∧
    (check_drop_impl adtTCtxt eqFailEngine 0 =
      Except.ok ([Diag.e0366 0 9], Except.error ErrorReported.reported) ∧
    ∀ d ∈ [Diag.e0366 0 9], ∀ sp np p, d ≠ Diag.e0367 sp np p) :=
  ⟨rfl, rfl, claim_C9 adtTCtxt eqFailEngine 0 9 GenArgs.nil [Diag.e0366 0 9] rfl rfl⟩

/-- Claim C10: the Relator ignores variance entirely: for every variance
and every pair of relatable operands, `relate_with_variance` returns
exactly the result of the plain relation. -/
theorem claim_C10 : ∀ (v : Variance) (a b : RelOperand),
    Relator.relate_with_variance v a b = Relator.relate a b :=
  fun _ _ _ => rfl
